import Mathlib

/-!
Verification development for the `quick_kriging` geostatistics toolkit
(`src/geostat_toolkit`: `core.py` and `io_utils.py`).

Python reals are modelled as rationals: none of the properties below
depends on binary floating-point rounding.  Fallible Python code (raised
exceptions) is modelled with `Except`.  Behaviour of the third-party
libraries `gstools` and `pykrige` that the repository calls into is
modelled by explicit definitions, each marked in its doc comment; the
numeric random/kriging values themselves are abstracted by fixed
deterministic functions, since every property below depends only on
shapes, determinism, parameter echoing and error behaviour, never on the
sampled values.
-/

namespace QuickKriging

/-- The errors raised by the toolkit and the libraries it calls, keyed by the
raise site: `unknownModel` is `core.py` line 52 (`ValueError` for an
unrecognized `model_type`, carrying the verbatim name), `invalidParameter`
is the gstools/pykrige construction-argument check, `shapeMismatch` is
`io_utils.py` line 33, and `stopIteration` is the unhandled `StopIteration`
from `next(iter(...))` on an empty dict in `io_utils.py` line 30. -/
inductive GeoError where
  | unknownModel (modelType : String)
  | invalidParameter (arg : String)
  | shapeMismatch
  | stopIteration
deriving DecidableEq, Repr

/-- Python's `str.lower()` as applied to the model-type names here:
lowercases every character (ASCII case mapping). -/
def pyLower (s : String) : String :=
  ⟨s.data.map Char.toLower⟩

/-- `np.linspace(0, stop, num)`: `num` evenly spaced points from `0` to
`stop` inclusive (`[0]` for `num = 1`, `[]` for `num = 0`). -/
def linspace (stop : ℚ) (num : ℕ) : List ℚ :=
  if num ≤ 1 then (List.range num).map (fun _ => 0)
  else (List.range num).map (fun i => stop * i / ((num : ℚ) - 1))

/-- The three covariance families of `core.py`'s `model_map`. -/
inductive CovFamily where
  | gaussian
  | spherical
  | exponential
deriving DecidableEq, Repr

/-- `core.py` lines 45–49: the `model_map` dict from lowercase family
names to covariance model classes. -/
def model_map : List (String × CovFamily) :=
  [("gaussian", CovFamily.gaussian),
   ("spherical", CovFamily.spherical),
   ("exponential", CovFamily.exponential)]

/-- A constructed gstools covariance model
`Family(dim=2, var=variance, len_scale=length_scale)`. -/
structure CovModel where
  family : CovFamily
  dim : ℕ
  var : ℚ
  len_scale : ℚ
deriving DecidableEq, Repr

/-- Modelled from gstools (a library dependency, not part of this
repository): constructing `Family(dim=.., var=.., len_scale=..)` checks the
default argument bounds — `var` and `len_scale` must lie in the open
interval `(0, ∞)` — and raises a `ValueError` (the spec's
`InvalidParameter`) naming the offending argument when a bound is
violated. -/
def mkCovModel (family : CovFamily) (dim : ℕ) (var len_scale : ℚ) :
    Except GeoError CovModel :=
  if var ≤ 0 then .error (.invalidParameter "var")
  else if len_scale ≤ 0 then .error (.invalidParameter "len_scale")
  else .ok ⟨family, dim, var, len_scale⟩

/-- A 2D numpy array, as its list of rows. -/
structure Mat where
  rows : List (List ℚ)
deriving DecidableEq, Repr

/-- numpy `arr.shape` for a 2D array: `(number of rows, number of columns)`. -/
def Mat.shape (m : Mat) : ℕ × ℕ :=
  (m.rows.length, (m.rows.headD []).length)

/-- numpy `arr.flatten()`: C (row-major) order, first row first. -/
def Mat.flattenC (m : Mat) : List ℚ :=
  m.rows.flatten

/-- Abstraction of the gstools randomization: a fixed deterministic function
of the model, the effective seed and the position.  The properties proved
below depend only on its determinism, never on the sampled values. -/
def srfValue (model : CovModel) (seed : Int) (xv yv : ℚ) : ℚ :=
  model.var * ((seed : ℚ) + xv + model.len_scale * yv + (model.dim : ℚ))

/-- Modelled from gstools (a library dependency, not part of this
repository): `SRF(model, seed=seed).structured([x, y])` returns an array of
shape `(len(x), len(y))` — the axes are ordered as the position tuple is
given (`'ij'` indexing), so entry `[i][j]` is the field value at
`(x[i], y[j])`.  With `seed=None` gstools seeds itself from fresh entropy;
that ambient entropy is the explicit `entropy` argument here, consumed only
when `seed` is `none`. -/
def srf_structured (model : CovModel) (seed : Option Int) (entropy : Int)
    (x y : List ℚ) : Mat :=
  ⟨x.map fun xv => y.map fun yv => srfValue model (seed.getD entropy) xv yv⟩

/-- The `(x_coords, y_coords, field_values)` triple returned by
`generate_synthetic_field`. -/
structure SynthField where
  x : List ℚ
  y : List ℚ
  field : Mat
deriving DecidableEq, Repr

/-- `core.py` lines 11–61, `generate_synthetic_field`: builds the
coordinate arrays with `np.linspace`, rejects a `model_type` whose
lowercase form is not a `model_map` key (`ValueError`, line 52), constructs
the gstools covariance model (which checks `variance`/`length_scale`), and
generates the structured random field.  `entropy` models the ambient
randomness gstools consumes only when `seed` is `None`. -/
def generate_synthetic_field (x_max y_max : ℚ) (nx ny : ℕ)
    (model_type : String) (variance length_scale : ℚ)
    (seed : Option Int) (entropy : Int) : Except GeoError SynthField :=
  let x := linspace x_max nx
  let y := linspace y_max ny
  match model_map.lookup (pyLower model_type) with
  | none => .error (.unknownModel model_type)
  | some fam =>
      (mkCovModel fam 2 variance length_scale).map fun model =>
        ⟨x, y, srf_structured model seed entropy x y⟩

/-- `generate_synthetic_field` raised the unknown-model `ValueError` of
`core.py` line 52. -/
def isUnknownModelError : Except GeoError SynthField → Bool
  | .error (.unknownModel _) => true
  | _ => false

/-- `generate_synthetic_field` raised the bad-construction-argument
`ValueError` from the gstools model constructor. -/
def isInvalidParameterError : Except GeoError SynthField → Bool
  | .error (.invalidParameter _) => true
  | _ => false

/-- The variogram model names accepted by pykrige's `OrdinaryKriging`
(its `variogram_dict` keys). -/
def pykrige_models : List String :=
  ["linear", "power", "gaussian", "spherical", "exponential", "hole-effect"]

/-- A constructed pykrige `OrdinaryKriging` object. -/
structure OrdinaryKriging where
  sample_x : List ℚ
  sample_y : List ℚ
  sample_values : List ℚ
  variogram_model : String
  anisotropy_angle : ℚ
deriving DecidableEq, Repr

/-- Modelled from pykrige (a library dependency, not part of this
repository): the `OrdinaryKriging` constructor stores its inputs, rejects a
`variogram_model` name outside `variogram_dict` with a `ValueError`, and
fits the parameters of the chosen family to the samples' empirical
variogram (those fitted numeric parameters are irrelevant to the
properties below and are abstracted away).  `anisotropy_angle` defaults to
`0.0` when not passed. -/
def mkOrdinaryKriging (sx sy sv : List ℚ) (variogram_model : String)
    (anisotropy_angle : ℚ) : Except GeoError OrdinaryKriging :=
  if pykrige_models.contains variogram_model then
    .ok ⟨sx, sy, sv, variogram_model, anisotropy_angle⟩
  else .error (.invalidParameter "variogram_model")

/-- Abstraction of the kriging prediction at one grid node: a fixed
deterministic function of the constructed object and the node. -/
def krigValue (ok : OrdinaryKriging) (gx gy : ℚ) : ℚ :=
  ok.sample_values.sum + gx + gy + ok.anisotropy_angle

/-- Abstraction of the kriging variance at one grid node: a fixed
deterministic function of the constructed object and the node. -/
def krigVariance (ok : OrdinaryKriging) (gx gy : ℚ) : ℚ :=
  gx * gy + ok.sample_values.sum

/-- Modelled from pykrige: `ok.execute('grid', grid_x, grid_y)` returns the
prediction and variance arrays over the grid, row `j` ranging over
`grid_y` and column `i` over `grid_x`. -/
def OrdinaryKriging.execute (ok : OrdinaryKriging) (gx gy : List ℚ) :
    Mat × Mat :=
  (⟨gy.map fun yv => gx.map fun xv => krigValue ok xv yv⟩,
   ⟨gy.map fun yv => gx.map fun xv => krigVariance ok xv yv⟩)

/-- The optional `params` dict of `run_kriging`: `params.get('model')` and
`params.get('angle')` may each be present or absent. -/
structure ParamsDict where
  model : Option String
  angle : Option ℚ
deriving DecidableEq, Repr

/-- The `final_params` dict `{'model': .., 'angle': ..}` returned by
`run_kriging`. -/
structure FinalParams where
  model : String
  angle : ℚ
deriving DecidableEq, Repr

/-- The `(predictions, variances, final_params)` triple returned by
`run_kriging`. -/
structure KrigResult where
  predictions : Mat
  variances : Mat
  final_params : FinalParams
deriving DecidableEq, Repr

/-- `core.py` lines 64–123, `run_kriging`: with `params=None` it constructs
`OrdinaryKriging` with the hard-coded `variogram_model='gaussian'` (source
comment: `# Default fallback`) and default angle, echoing
`{'model': ok.variogram_model, 'angle': 0.0}`; with an explicit dict it
reads `params.get('model', 'gaussian')` and `params.get('angle', 0.0)`,
constructs the solver with them and echoes exactly those two values. -/
def run_kriging (sample_x sample_y sample_values grid_x grid_y : List ℚ)
    (params : Option ParamsDict) : Except GeoError KrigResult :=
  match params with
  | none =>
      (mkOrdinaryKriging sample_x sample_y sample_values "gaussian" 0).map
        fun ok =>
          ⟨(ok.execute grid_x grid_y).1, (ok.execute grid_x grid_y).2,
           ⟨ok.variogram_model, 0⟩⟩
  | some prm =>
      let model := prm.model.getD "gaussian"
      let angle := prm.angle.getD 0
      (mkOrdinaryKriging sample_x sample_y sample_values model angle).map
        fun ok =>
          ⟨(ok.execute grid_x grid_y).1, (ok.execute grid_x grid_y).2,
           ⟨model, angle⟩⟩

/-- An `xml.etree.ElementTree` element: tag, attributes in the order the
source `.set`s them, optional text, and child elements in insertion
order. -/
inductive Xml where
  | elem (tag : String) (attrs : List (String × String))
      (text : Option String) (children : List Xml)

/-- The tag of an element. -/
def Xml.tag : Xml → String
  | .elem t _ _ _ => t

/-- The attributes of an element. -/
def Xml.attrs : Xml → List (String × String)
  | .elem _ a _ _ => a

/-- The text of an element. -/
def Xml.text : Xml → Option String
  | .elem _ _ s _ => s

/-- The children of an element. -/
def Xml.children : Xml → List Xml
  | .elem _ _ _ c => c

/-- The `i`-th child of an element (a childless empty element when out of
range). -/
def Xml.child (x : Xml) (i : ℕ) : Xml :=
  x.children.getD i (.elem "" [] none [])

/-- Abstraction of Python's `str()` on a numeric value: a fixed rendering
of the rational to decimal-style text. -/
def pyStr (q : ℚ) : String := toString q

/-- `io_utils.py`: a `DataArray` element with its four attributes set in
source order (`type`, `Name`, `NumberOfComponents`, `format`) and the given
ascii text. -/
def dataArray (name text : String) : Xml :=
  .elem "DataArray"
    [("type", "Float64"), ("Name", name),
     ("NumberOfComponents", "1"), ("format", "ascii")]
    (some text) []

/-- The f-string `f"0 {nx-1} 0 {ny-1} 0 0"` of `io_utils.py` lines 43 and
47 (Python integer subtraction, so `-1` appears when a size is `0`). -/
def extentStr (nx ny : ℕ) : String :=
  "0 " ++ toString ((nx : ℤ) - 1) ++ " 0 " ++ toString ((ny : ℤ) - 1)
    ++ " 0 0"

/-- `io_utils.py` lines 50–74: the `Coordinates` element with the three
coordinate `DataArray`s; x and y joined with spaces, z a single value. -/
def coordinatesElem (x_coords y_coords : List ℚ) (z_coord : ℚ) : Xml :=
  .elem "Coordinates" [] none
    [dataArray "X_COORDINATES" (String.intercalate " " (x_coords.map pyStr)),
     dataArray "Y_COORDINATES" (String.intercalate " " (y_coords.map pyStr)),
     dataArray "Z_COORDINATES" (pyStr z_coord)]

/-- `io_utils.py` lines 77–88: the `PointData` element holding one
`DataArray` per field, its text the `flatten()`ed (row-major) values joined
with spaces. -/
def pointDataElem (data_fields : List (String × Mat)) : Xml :=
  .elem "PointData" [] none
    (data_fields.map fun fv =>
      dataArray fv.1 (String.intercalate " " (fv.2.flattenC.map pyStr)))

/-- The file `save_to_vtk` writes: its path and its XML document. -/
structure VtkOutput where
  path : String
  doc : Xml

/-- `io_utils.py` lines 12–93, `save_to_vtk`.  `data_fields` is the dict in
insertion order.  `next(iter(data_fields.values()))` on an empty dict
raises `StopIteration`; the shape check at lines 30–33 unpacks
`ny, nx = first.shape` and raises `ValueError` (the spec's `ShapeMismatch`)
when the coordinate lengths disagree with the FIRST field, before any XML
is built or written; otherwise the document is assembled and written to the
base path with `.vtr` appended. -/
def save_to_vtk (filepath : String) (data_fields : List (String × Mat))
    (x_coords y_coords : List ℚ) (z_coord : ℚ) :
    Except GeoError VtkOutput :=
  match data_fields with
  | [] => .error .stopIteration
  | first :: _ =>
      let ny := first.2.shape.1
      let nx := first.2.shape.2
      if x_coords.length ≠ nx ∨ y_coords.length ≠ ny then
        .error .shapeMismatch
      else
        .ok ⟨filepath ++ ".vtr",
          .elem "VTKFile"
            [("type", "RectilinearGrid"), ("version", "1.0"),
             ("byte_order", "LittleEndian")]
            none
            [.elem "RectilinearGrid" [("WholeExtent", extentStr nx ny)] none
              [.elem "Piece" [("Extent", extentStr nx ny)] none
                [coordinatesElem x_coords y_coords z_coord,
                 pointDataElem data_fields]]]⟩

/-- A key has no `model_map` entry exactly when it is none of the three
supported family names. -/
lemma model_map_lookup_eq_none (k : String) :
    model_map.lookup k = none ↔
      k ∉ (["gaussian", "spherical", "exponential"] : List String) := by
  by_cases h1 : k = "gaussian"
  · simp [model_map, List.lookup, h1]
  · by_cases h2 : k = "spherical"
    · simp [model_map, List.lookup, h2]
    · by_cases h3 : k = "exponential"
      · simp [model_map, List.lookup, h3]
      · have e1 : (k == "gaussian") = false := beq_eq_false_iff_ne.mpr h1
        have e2 : (k == "spherical") = false := beq_eq_false_iff_ne.mpr h2
        have e3 : (k == "exponential") = false := beq_eq_false_iff_ne.mpr h3
        simp [model_map, List.lookup, e1, e2, e3, h1, h2, h3]

/-- C1: on the failing input `nx = 3, ny = 2` (gaussian model, seed 0),
`generate_synthetic_field` returns a field of shape `(3, 2) = (nx, ny)` —
gstools' structured generator orders the axes as given — while the
returned coordinate arrays have `len(y) = 2` and `len(x) = 3`, so the
claimed (and docstring's) shape `(len(y), len(x)) = (2, 3)` does not
hold. -/
theorem generate_field_shape_is_nx_ny_at_3_2 :
    (generate_synthetic_field 1 1 3 2 "gaussian" 1 20 (some 0) 0).map
        (fun r => (r.field.shape, r.y.length, r.x.length)) =
      Except.ok ((3, 2), 2, 3) := by
  rfl

/-- C3 counterexample: at a concrete input, calling `run_kriging` with
`params=None` is indistinguishable from explicitly requesting the default
`{'model': 'gaussian', 'angle': 0.0}` — the absent-model case substitutes
the hard-coded default family (`core.py` line 94, comment
`# Default fallback`) instead of auto-fitting a model. -/
theorem run_kriging_none_is_default_fallback :
    run_kriging [0, 1, 2] [0, 1, 0] [5, 7, 6] [0, 1] [0, 1] none =
      run_kriging [0, 1, 2] [0, 1, 0] [5, 7, 6] [0, 1] [0, 1]
        (some ⟨some "gaussian", some 0⟩) := by
  rfl

/-- C6 counterexample: `variance = -1` together with the unknown model name
`"bogus"` fails with the UnknownModel error, not InvalidParameter — the
unknown-model check at `core.py` line 51 precedes model construction. -/
theorem invalid_variance_unknown_model_raises_unknown :
    generate_synthetic_field 1 1 2 2 "bogus" (-1) 20 none 0 =
        Except.error (GeoError.unknownModel "bogus") ∧
      isInvalidParameterError
        (generate_synthetic_field 1 1 2 2 "bogus" (-1) 20 none 0) = false := by
  exact ⟨rfl, rfl⟩

/-- C7 counterexample: the second field has shape `(1, 1)`, disagreeing
with the `2 × 2` grid, yet `save_to_vtk` succeeds — only the first field
is validated against the coordinate arrays. -/
theorem save_to_vtk_accepts_mismatched_second_field :
    (save_to_vtk "out" [("a", ⟨[[1, 2], [3, 4]]⟩), ("b", ⟨[[5]]⟩)]
        [0, 1] [0, 1] 0).isOk = true := by
  rfl

/-- C2: whenever `run_kriging` is called with an explicit params dict that
contains both `'model'` and `'angle'` and returns, the returned
`final_params` is exactly `{'model': the supplied model, 'angle': the
supplied angle}`, alongside the predictions and variances. -/
theorem run_kriging_echoes_explicit_params
    (sx sy sv gx gy : List ℚ) (m : String) (a : ℚ) (r : KrigResult)
    (h : run_kriging sx sy sv gx gy (some ⟨some m, some a⟩) =
      Except.ok r) :
    r.final_params = ⟨m, a⟩ := by
  simp only [run_kriging, Option.getD_some] at h
  cases hok : mkOrdinaryKriging sx sy sv m a with
  | error e => rw [hok] at h; cases h
  | ok o =>
      rw [hok] at h
      simp only [Except.map] at h
      cases h
      rfl

/-- C2 witness: a concrete explicit call with `model="gaussian"`,
`angle=0.0` returns and echoes exactly those. -/
theorem run_kriging_echoes_explicit_params_witness :
    (run_kriging [0, 1] [0, 1] [3, 4] [0] [0]
        (some ⟨some "gaussian", some 0⟩)).map
      (fun r => r.final_params) = Except.ok ⟨"gaussian", 0⟩ := by
  cases hok : run_kriging [0, 1] [0, 1] [3, 4] [0] [0]
      (some ⟨some "gaussian", some 0⟩) with
  | error e =>
      have hk : (run_kriging [0, 1] [0, 1] [3, 4] [0] [0]
          (some ⟨some "gaussian", some 0⟩)).isOk = true := rfl
      rw [hok] at hk
      cases hk
  | ok r =>
      simpa [Except.map] using
        run_kriging_echoes_explicit_params [0, 1] [0, 1] [3, 4] [0] [0]
          "gaussian" 0 r hok

/-- C3 amended: with `params=None`, `run_kriging` does not auto-fit a
model family; it substitutes the hard-coded default family `"gaussian"`
with angle `0.0` — any returned `final_params` is that constant, whatever
the samples are. -/
theorem run_kriging_none_final_params_constant
    (sx sy sv gx gy : List ℚ) (r : KrigResult)
    (h : run_kriging sx sy sv gx gy none = Except.ok r) :
    r.final_params = ⟨"gaussian", 0⟩ := by
  simp only [run_kriging] at h
  cases hok : mkOrdinaryKriging sx sy sv "gaussian" 0 with
  | error e => rw [hok] at h; cases h
  | ok o =>
      rw [hok] at h
      simp only [Except.map] at h
      cases h
      have : o.variogram_model = "gaussian" := by
        have := hok
        unfold mkOrdinaryKriging at this
        simp only [show pykrige_models.contains "gaussian" = true from rfl,
          if_true] at this
        cases this
        rfl
      simp [this]

/-- C3 amended witness: a concrete `params=None` call returns the constant
default `final_params`. -/
theorem run_kriging_none_final_params_constant_witness :
    (run_kriging [0, 1] [1, 0] [2, 5] [0] [0] none).map
      (fun r => r.final_params) = Except.ok ⟨"gaussian", 0⟩ := by
  cases hok : run_kriging [0, 1] [1, 0] [2, 5] [0] [0] none with
  | error e =>
      have hk : (run_kriging [0, 1] [1, 0] [2, 5] [0] [0] none).isOk =
          true := rfl
      rw [hok] at hk
      cases hk
  | ok r =>
      simpa [Except.map] using
        run_kriging_none_final_params_constant [0, 1] [1, 0] [2, 5] [0] [0]
          r hok

/-- C4: with the same non-None seed and identical arguments, repeated
calls of `generate_synthetic_field` return identical results: the output
does not depend on the ambient entropy that gstools draws only when the
seed is absent. -/
theorem generate_field_reproducible_with_seed
    (x_max y_max : ℚ) (nx ny : ℕ) (mt : String)
    (variance length_scale : ℚ) (s : ℤ) (e₁ e₂ : ℤ) :
    generate_synthetic_field x_max y_max nx ny mt variance length_scale
        (some s) e₁ =
      generate_synthetic_field x_max y_max nx ny mt variance length_scale
        (some s) e₂ := by
  unfold generate_synthetic_field
  rcases h : model_map.lookup (pyLower mt) with _ | fam
  · rfl
  · simp [srf_structured]

/-- C5: `generate_synthetic_field` fails with the UnknownModel error
exactly when the lowercase form of `model_type` is none of the supported
family names gaussian, spherical, exponential; a supported name never
produces that error. -/
theorem generate_field_unknown_model_iff
    (x_max y_max : ℚ) (nx ny : ℕ) (mt : String)
    (variance length_scale : ℚ) (seed : Option ℤ) (e : ℤ) :
    isUnknownModelError
        (generate_synthetic_field x_max y_max nx ny mt variance
          length_scale seed e) = true ↔
      pyLower mt ∉ (["gaussian", "spherical", "exponential"] : List String) := by
  have hl := model_map_lookup_eq_none (pyLower mt)
  unfold generate_synthetic_field
  rcases h : model_map.lookup (pyLower mt) with _ | fam
  · simp only [isUnknownModelError]
    simpa using hl.mp h
  · have hmem : pyLower mt ∈ (["gaussian", "spherical", "exponential"] :
        List String) := by
      by_contra hc
      rw [hl.mpr hc] at h
      cases h
    unfold mkCovModel
    by_cases hv : variance ≤ 0
    · simp [hv, isUnknownModelError, Except.map, hmem]
    · by_cases hls : length_scale ≤ 0 <;>
        simp [hv, hls, isUnknownModelError, Except.map, hmem]

/-- C6 amended: for a `model_type` whose lowercase form is a supported
family name, `variance ≤ 0` or `length_scale ≤ 0` makes
`generate_synthetic_field` fail with the InvalidParameter error raised at
gstools model construction, rather than constructing a model and returning
a field. -/
theorem generate_field_invalid_parameter
    (x_max y_max : ℚ) (nx ny : ℕ) (mt : String)
    (variance length_scale : ℚ) (seed : Option ℤ) (e : ℤ)
    (hmt : pyLower mt ∈ (["gaussian", "spherical", "exponential"] :
      List String))
    (hbad : variance ≤ 0 ∨ length_scale ≤ 0) :
    isInvalidParameterError
      (generate_synthetic_field x_max y_max nx ny mt variance length_scale
        seed e) = true := by
  unfold generate_synthetic_field
  rcases h : model_map.lookup (pyLower mt) with _ | fam
  · exact absurd hmt ((model_map_lookup_eq_none (pyLower mt)).mp h)
  · unfold mkCovModel
    rcases hbad with hv | hls
    · simp [hv, isInvalidParameterError, Except.map]
    · by_cases hv : variance ≤ 0 <;>
        simp [hv, hls, isInvalidParameterError, Except.map]

/-- C6 amended witness: `variance = -1` with the supported name
`"gaussian"` fails with InvalidParameter. -/
theorem generate_field_invalid_parameter_witness :
    isInvalidParameterError
      (generate_synthetic_field 1 1 2 2 "gaussian" (-1) 20 none 0) =
      true :=
  generate_field_invalid_parameter 1 1 2 2 "gaussian" (-1) 20 none 0
    (by decide) (Or.inl (by norm_num))

/-- C7 amended: `save_to_vtk` validates only the FIRST field of a
non-empty `data_fields` against the grid: it fails with the ShapeMismatch
error — building and writing nothing — precisely when the coordinate
lengths disagree with the first field's shape, and succeeds otherwise,
later fields unchecked. -/
theorem save_to_vtk_validates_first_field_only
    (fp : String) (f : String × Mat) (rest : List (String × Mat))
    (x y : List ℚ) (z : ℚ) :
    (save_to_vtk fp (f :: rest) x y z = Except.error GeoError.shapeMismatch
      ↔ (x.length ≠ f.2.shape.2 ∨ y.length ≠ f.2.shape.1)) ∧
    ((save_to_vtk fp (f :: rest) x y z).isOk = true ↔
      (x.length = f.2.shape.2 ∧ y.length = f.2.shape.1)) := by
  unfold save_to_vtk
  by_cases hc : x.length ≠ f.2.shape.2 ∨ y.length ≠ f.2.shape.1 <;>
    simp [hc, Except.isOk] <;> tauto

/-- C8: every successful `save_to_vtk` call writes to the base path with
`.vtr` appended an XML document whose root is
`VTKFile[type=RectilinearGrid, version=1.0, byte_order=LittleEndian]`,
whose grid carries `WholeExtent = "0 {nx-1} 0 {ny-1} 0 0"` computed from
the coordinate-array lengths, and whose `PointData` holds one `DataArray`
per exported field with the field's row-major (y slowest, x fastest)
flattening as space-separated ascii floats. -/
theorem save_to_vtk_output_structure
    (fp : String) (data_fields : List (String × Mat))
    (x y : List ℚ) (z : ℚ) (out : VtkOutput)
    (h : save_to_vtk fp data_fields x y z = Except.ok out) :
    out.path = fp ++ ".vtr" ∧
    out.doc.tag = "VTKFile" ∧
    out.doc.attrs = [("type", "RectilinearGrid"), ("version", "1.0"),
      ("byte_order", "LittleEndian")] ∧
    (out.doc.child 0).tag = "RectilinearGrid" ∧
    (out.doc.child 0).attrs =
      [("WholeExtent", extentStr x.length y.length)] ∧
    ((out.doc.child 0).child 0).child 1 =
      Xml.elem "PointData" [] none
        (data_fields.map fun fv =>
          dataArray fv.1
            (String.intercalate " " (fv.2.flattenC.map pyStr))) := by
  cases data_fields with
  | nil => exact absurd h (by simp [save_to_vtk])
  | cons f rest =>
      simp only [save_to_vtk] at h
      by_cases hc : x.length ≠ f.2.shape.2 ∨ y.length ≠ f.2.shape.1
      · rw [if_pos hc] at h; cases h
      · rw [if_neg hc] at h
        push_neg at hc
        obtain ⟨hx, hy⟩ := hc
        cases h
        refine ⟨rfl, rfl, rfl, rfl, ?_, ?_⟩
        · simp [Xml.child, Xml.children, Xml.attrs, hx, hy]
        · simp [Xml.child, Xml.children, pointDataElem]

/-- C8 witness: a concrete successful export has the stated path and
structure. -/
theorem save_to_vtk_output_structure_witness :
    (save_to_vtk "w8" [("F", ⟨[[1, 2], [3, 4]]⟩)] [0, 1] [0, 1] 0).map
      VtkOutput.path = Except.ok ("w8" ++ ".vtr") := by
  cases hok : save_to_vtk "w8" [("F", ⟨[[1, 2], [3, 4]]⟩)] [0, 1] [0, 1] 0
      with
  | error e =>
      have hk : (save_to_vtk "w8" [("F", ⟨[[1, 2], [3, 4]]⟩)] [0, 1] [0, 1]
          0).isOk = true := rfl
      rw [hok] at hk
      cases hk
  | ok out =>
      have hs := save_to_vtk_output_structure "w8"
        [("F", ⟨[[1, 2], [3, 4]]⟩)] [0, 1] [0, 1] 0 out hok
      simp [Except.map, hs.1]

/-- C9: model-family matching is case-insensitive: any `model_type` whose
lowercase form equals a supported family name behaves exactly like the
lowercase name itself, and (for valid variance and length scale) the call
is accepted. -/
theorem generate_field_case_insensitive
    (x_max y_max : ℚ) (nx ny : ℕ) (s t : String)
    (variance length_scale : ℚ) (seed : Option ℤ) (e : ℤ)
    (hmem : t ∈ (["gaussian", "spherical", "exponential"] : List String))
    (hlow : pyLower s = t)
    (hv : 0 < variance) (hl : 0 < length_scale) :
    generate_synthetic_field x_max y_max nx ny s variance length_scale
        seed e =
      generate_synthetic_field x_max y_max nx ny t variance length_scale
        seed e ∧
    (generate_synthetic_field x_max y_max nx ny s variance length_scale
        seed e).isOk = true := by
  have key : ∀ fam : CovFamily, model_map.lookup t = some fam →
      pyLower t = t →
      (generate_synthetic_field x_max y_max nx ny s variance length_scale
          seed e =
        generate_synthetic_field x_max y_max nx ny t variance length_scale
          seed e) ∧
      (generate_synthetic_field x_max y_max nx ny s variance length_scale
          seed e).isOk = true := by
    intro fam hfam hidem
    refine ⟨?_, ?_⟩
    · unfold generate_synthetic_field
      rw [hlow, hidem, hfam]
    · unfold generate_synthetic_field
      rw [hlow, hfam]
      simp only [mkCovModel, if_neg (not_le.mpr hv),
        if_neg (not_le.mpr hl), Except.map, Except.isOk, Except.toBool]
  fin_cases hmem <;> exact key _ rfl rfl

/-- C9 witness: `"GAUSSIAN"` is accepted and behaves exactly like
`"gaussian"`. -/
theorem generate_field_case_insensitive_witness :
    generate_synthetic_field 10 10 3 3 "GAUSSIAN" 1 20 (some 42) 0 =
      generate_synthetic_field 10 10 3 3 "gaussian" 1 20 (some 42) 0 ∧
    (generate_synthetic_field 10 10 3 3 "GAUSSIAN" 1 20
      (some 42) 0).isOk = true :=
  generate_field_case_insensitive 10 10 3 3 "GAUSSIAN" "gaussian" 1 20
    (some 42) 0 (by decide) (by decide) (by norm_num) (by norm_num)

/-- C10: `save_to_vtk` requires a non-empty `data_fields`: the empty dict
raises `StopIteration` (from `next(iter(...))`, before any validation or
file output), and the shape validation consults only the first field —
replacing the later fields can never change whether ShapeMismatch is
raised. -/
theorem save_to_vtk_empty_and_first_field_only :
    (∀ (fp : String) (x y : List ℚ) (z : ℚ),
      save_to_vtk fp [] x y z = Except.error GeoError.stopIteration) ∧
    (∀ (fp : String) (f : String × Mat)
        (rest rest' : List (String × Mat)) (x y : List ℚ) (z : ℚ),
      (save_to_vtk fp (f :: rest) x y z =
          Except.error GeoError.shapeMismatch ↔
        save_to_vtk fp (f :: rest') x y z =
          Except.error GeoError.shapeMismatch)) := by
  constructor
  · intro fp x y z
    rfl
  · intro fp f rest rest' x y z
    unfold save_to_vtk
    by_cases hc : x.length ≠ f.2.shape.2 ∨ y.length ≠ f.2.shape.1 <;>
      simp [hc]

end QuickKriging
